import Mathlib

/-!
Verification of the Shared-Memory KV Store glue layer.

The Lean definitions below are a shallow embedding of the Python sources
`kv_store_wrapper.py` (class KVStoreWrapper) and `api_server.py` (the FastAPI
endpoints and the lifespan startup routine).  The C engine
(`shared_memory_kv.c`) is not among the analyzed sources — only its ctypes
binding surface is — so the Table Engine operations reached through
`self.lib.shared_memory_kv_*` are modelled from the specification, each marked
`Modelled from the spec:` in its doc comment.

Strings stored in the C table are NUL-terminated byte arrays holding UTF-8
data; we model them as the decoded Lean strings and measure the byte lengths
the Python code checks (`len(key.encode(utf8))`) with `String.utf8ByteSize`.
-/

namespace SharedMemoryKV

/-- Constant MAX_ENTRIES from kv_store_wrapper.py (mirrors shared_memory_kv.h). -/
def MAX_ENTRIES : Nat := 10

/-- Constant KEY_SIZE from kv_store_wrapper.py: a key buffer holds at most
KEY_SIZE - 1 bytes plus the terminator. -/
def KEY_SIZE : Nat := 64

/-- Constant VALUE_SIZE from kv_store_wrapper.py: a value buffer holds at most
VALUE_SIZE - 1 bytes plus the terminator. -/
def VALUE_SIZE : Nat := 256

/-- One slot of the table (ctypes structure KVPair / C kv_pair_t): key and
value are bounded NUL-terminated strings, timestamp is a time_t. -/
structure KVPair where
  key : String
  value : String
  timestamp : Int
  deriving Repr, DecidableEq

/-- The mapped segment contents (ctypes structure SharedMemoryKVStore / C
shared_memory_kv_store_t): the slot table, then an opaque semaphore (carrying
no state observable from the Python layer, hence omitted), then the version
counter and the occupied-entry count (c_uint fields; no claim below touches
32-bit wraparound).  In the C layout kv_table has exactly MAX_ENTRIES slots;
theorems quantifying over a `Segment` hold for every table length, in
particular for length MAX_ENTRIES. -/
structure Segment where
  kv_table : List KVPair
  version : Nat
  entry_count : Nat
  deriving Repr, DecidableEq

/-- The wrapper's `self.store_ptr`: Python `None`, a ctypes NULL pointer
object (as produced by a failed create/open, see test_fix.py), or a pointer to
a mapped segment. -/
inductive PtrState where
  | noPtr
  | nullPtr
  | valid (seg : Segment)
  deriving Repr, DecidableEq

/-- The mutable state of a KVStoreWrapper instance: `self.store_ptr` and
`self.fd` (a c_int descriptor). -/
structure WrapperState where
  store_ptr : PtrState
  fd : Int
  deriving Repr, DecidableEq

/-- Which C library functions a wrapper operation invokes, in call order.
Per the spec every Table Engine operation acquires the Guard inside the
engine, so an operation whose call list is empty never touches the Guard. -/
inductive EngineCall where
  | kvCreate
  | kvOpen
  | kvDestroy
  | kvUnlink
  | kvSet
  | kvGet
  | kvDelete
  deriving Repr, DecidableEq

/-- KVStoreWrapper._check_store: False when store_ptr is None; a NULL pointer
object makes it store `self.store_ptr = None` and report False; a non-NULL
pointer reports True. -/
def checkStore (s : WrapperState) : Bool × WrapperState :=
  match s.store_ptr with
  | .noPtr => (false, s)
  | .nullPtr => (false, { s with store_ptr := .noPtr })
  | .valid _ => (true, s)

/-- Modelled from the spec: the failure kinds of the Table Engine put/get
that can reach the binding surface (KeyTooLong, ValueTooLong, NotFound,
StoreFull; the segment-lifecycle kinds never flow through kv_set/kv_get). -/
inductive EngineFail where
  | keyTooLong
  | valueTooLong
  | notFound
  | storeFull
  deriving Repr, DecidableEq

/-- Modelled from the spec: the C engine (absent from the analyzed sources)
reports failure by returning -1 and setting errno.  The wrapper source reveals
only that NotFound surfaces as ENOENT (2, checked in KVStoreWrapper.get); the
other numbers are POSIX stand-ins (ENOSPC 28 for StoreFull, ENAMETOOLONG 36
for the length kinds).  The theorems below depend on no choice except
NotFound's observed 2, and where an errno value appears in a conclusion the
accompanying general conjunct shows the conclusion holds for every kind. -/
def errnoOf : EngineFail → Nat
  | .notFound => 2
  | .storeFull => 28
  | .keyTooLong => 36
  | .valueTooLong => 36

/-- A slot is free iff its key's first byte is the NUL terminator, i.e. the
decoded key string is empty (matches the truthiness test `if pair.key:` on the
NUL-terminated bytes in get_status). -/
def slotFree (p : KVPair) : Bool := p.key == ""

/-- Modelled from the spec: Table Engine put — validate the byte lengths, then
under the Guard linear-scan for an occupied slot whose key matches and
overwrite its value and timestamp in place; otherwise write into the first
free slot (index order) and increment entry_count; fail StoreFull when no slot
is free; every successful mutation increments version by exactly 1. -/
def enginePut (seg : Segment) (key value : String) (ts : Int) :
    Except EngineFail Segment :=
  if KEY_SIZE ≤ key.utf8ByteSize then .error .keyTooLong
  else if VALUE_SIZE ≤ value.utf8ByteSize then .error .valueTooLong
  else
    match seg.kv_table.findIdx? (fun p => !slotFree p && p.key == key) with
    | some i =>
        .ok { seg with
                kv_table := seg.kv_table.set i ⟨key, value, ts⟩,
                version := seg.version + 1 }
    | none =>
        match seg.kv_table.findIdx? (fun p => slotFree p) with
        | some i =>
            .ok { seg with
                    kv_table := seg.kv_table.set i ⟨key, value, ts⟩,
                    version := seg.version + 1,
                    entry_count := seg.entry_count + 1 }
        | none => .error .storeFull

/-- Modelled from the spec: Table Engine get — validate the key's byte length,
then under the Guard linear-scan for an exact key match among occupied slots
and copy out the value; fail NotFound otherwise; never mutates the segment. -/
def engineGet (seg : Segment) (key : String) : Except EngineFail String :=
  if KEY_SIZE ≤ key.utf8ByteSize then .error .keyTooLong
  else
    match seg.kv_table.find? (fun p => !slotFree p && p.key == key) with
    | some p => .ok p.value
    | none => .error .notFound

/-- Error string of kv_store_wrapper.py for an uninitialized store. -/
def notInitMsg : String := "Store not initialized"

/-- Error string of KVStoreWrapper.set / .get for an oversized key. -/
def keyTooLongMsg : String :=
  "Key too long (max " ++ toString (KEY_SIZE - 1) ++ " bytes)"

/-- Error string of KVStoreWrapper.set for an oversized value. -/
def valueTooLongMsg : String :=
  "Value too long (max " ++ toString (VALUE_SIZE - 1) ++ " bytes)"

/-- Error string KVStoreWrapper.set formats from the C errno on an engine
failure. -/
def setErrnoMsg (n : Nat) : String := "Error setting key: errno=" ++ toString n

/-- Error string KVStoreWrapper.get formats from a C errno other than ENOENT. -/
def getErrnoMsg (n : Nat) : String := "Error getting key: errno=" ++ toString n

/-- Error string of KVStoreWrapper.get when the C errno is ENOENT (2). -/
def keyNotFoundMsg : String := "Key not found"

/-- Result of KVStoreWrapper.set: the Python pair (success, error_message),
plus the wrapper state after the call and the C functions invoked. -/
structure SetOut where
  ok : Bool
  err : Option String
  state : WrapperState
  calls : List EngineCall
  deriving Repr, DecidableEq

/-- KVStoreWrapper.set: the first two branches are `_check_store` (a NULL
pointer object is normalized to None); then the UTF-8 byte lengths are
checked; only then is the C function shared_memory_kv_set invoked.  `ts` is
the wall-clock time the engine stamps on a successful write. -/
def KVStoreWrapper.set (s : WrapperState) (key value : String) (ts : Int) :
    SetOut :=
  match s.store_ptr with
  | .noPtr => ⟨false, some notInitMsg, s, []⟩
  | .nullPtr => ⟨false, some notInitMsg, { s with store_ptr := .noPtr }, []⟩
  | .valid seg =>
    if KEY_SIZE ≤ key.utf8ByteSize then ⟨false, some keyTooLongMsg, s, []⟩
    else if VALUE_SIZE ≤ value.utf8ByteSize then
      ⟨false, some valueTooLongMsg, s, []⟩
    else
      match enginePut seg key value ts with
      | .ok seg2 =>
          ⟨true, none, { s with store_ptr := .valid seg2 }, [.kvSet]⟩
      | .error f =>
          ⟨false, some (setErrnoMsg (errnoOf f)), s, [.kvSet]⟩

/-- Result of KVStoreWrapper.get: the Python pair (value, error_message), plus
the wrapper state after the call and the C functions invoked. -/
structure GetOut where
  value : Option String
  err : Option String
  state : WrapperState
  calls : List EngineCall
  deriving Repr, DecidableEq

/-- KVStoreWrapper.get: `_check_store` (normalizing a NULL pointer object),
then the same key byte-length validation as set, then the C function
shared_memory_kv_get; errno ENOENT (2) maps to "Key not found", any other
errno to the generic message. -/
def KVStoreWrapper.get (s : WrapperState) (key : String) : GetOut :=
  match s.store_ptr with
  | .noPtr => ⟨none, some notInitMsg, s, []⟩
  | .nullPtr => ⟨none, some notInitMsg, { s with store_ptr := .noPtr }, []⟩
  | .valid seg =>
    if KEY_SIZE ≤ key.utf8ByteSize then ⟨none, some keyTooLongMsg, s, []⟩
    else
      match engineGet seg key with
      | .ok v => ⟨some v, none, s, [.kvGet]⟩
      | .error f =>
          if errnoOf f = 2 then ⟨none, some keyNotFoundMsg, s, [.kvGet]⟩
          else ⟨none, some (getErrnoMsg (errnoOf f)), s, [.kvGet]⟩

/-- One element of the "entries" list returned by get_status. -/
structure StatusEntry where
  key : String
  value : String
  timestamp : Int
  deriving Repr, DecidableEq

/-- The dict returned by KVStoreWrapper.get_status. -/
structure Status where
  version : Nat
  entry_count : Nat
  max_entries : Nat
  entries : List StatusEntry
  deriving Repr, DecidableEq

/-- The Python loop in get_status: walk the slots in index order and append
(key, value, timestamp) for each slot whose key is non-empty, i.e. each slot
that is not free. -/
def collectEntries : List KVPair → List StatusEntry
  | [] => []
  | p :: rest =>
      if slotFree p then collectEntries rest
      else ⟨p.key, p.value, p.timestamp⟩ :: collectEntries rest

/-- KVStoreWrapper.get_status: None when `_check_store` fails (normalizing a
NULL pointer object, as exercised by test_fix.py); otherwise a snapshot of
version, entry_count, MAX_ENTRIES and the occupied slots in index order.  The
read goes straight through the mapped ctypes structure: no C function is
invoked, and in particular no code path touches the embedded semaphore. -/
def KVStoreWrapper.get_status (s : WrapperState) :
    Option Status × WrapperState × List EngineCall :=
  match s.store_ptr with
  | .noPtr => (none, s, [])
  | .nullPtr => (none, { s with store_ptr := .noPtr }, [])
  | .valid seg =>
      (some { version := seg.version, entry_count := seg.entry_count,
              max_entries := MAX_ENTRIES,
              entries := collectEntries seg.kv_table },
       s, [])

/-- KVStoreWrapper.destroy: when `_check_store` passes, call the C unmap
(shared_memory_kv_destroy) and reset store_ptr to None and fd to -1;
otherwise do nothing beyond `_check_store`'s NULL normalization. -/
def KVStoreWrapper.destroy (s : WrapperState) : WrapperState × List EngineCall :=
  match s.store_ptr with
  | .noPtr => (s, [])
  | .nullPtr => ({ s with store_ptr := .noPtr }, [])
  | .valid _ => ({ store_ptr := .noPtr, fd := -1 }, [.kvDestroy])

/-- What a call into shared_memory_kv_create or shared_memory_kv_open hands
back to the wrapper: the returned store pointer (`none` models a NULL return)
and the descriptor value the C side writes through the fd pointer. -/
structure COpenResult where
  ptr : Option Segment
  fd : Int
  deriving Repr, DecidableEq

/-- KVStoreWrapper.create: store the C result in store_ptr and fd, then
report `_check_store` (which normalizes a NULL result to None). -/
def KVStoreWrapper.create (s : WrapperState) (r : COpenResult) :
    Bool × WrapperState × List EngineCall :=
  let s1 : WrapperState :=
    { store_ptr := match r.ptr with
                   | some seg => .valid seg
                   | none => .nullPtr,
      fd := r.fd }
  let c := checkStore s1
  (c.1, c.2, [.kvCreate])

/-- KVStoreWrapper.open (named openStore because `open` is a Lean keyword):
store the C result in store_ptr and fd, then report `_check_store`. -/
def KVStoreWrapper.openStore (s : WrapperState) (r : COpenResult) :
    Bool × WrapperState × List EngineCall :=
  let s1 : WrapperState :=
    { store_ptr := match r.ptr with
                   | some seg => .valid seg
                   | none => .nullPtr,
      fd := r.fd }
  let c := checkStore s1
  (c.1, c.2, [.kvOpen])

/-- Leading-match test on character lists: the first argument read in full
equals the corresponding leading characters of the second. -/
def leadMatch : List Char → List Char → Bool
  | [], _ => true
  | _ :: _, [] => false
  | a :: xs, b :: ys => a == b && leadMatch xs ys

/-- Substring occurrence on character lists (needle first), matching Python's
`needle in hay`. -/
def charsContains (needle : List Char) : List Char → Bool
  | [] => leadMatch needle []
  | c :: rest => leadMatch needle (c :: rest) || charsContains needle rest

/-- Python's substring operator `needle in hay` on strings. -/
def strContains (hay needle : String) : Bool :=
  charsContains needle.data hay.data

/-- Python's str.lower(), character by character (all strings the server
inspects are ASCII, where Char.toLower coincides with Python's lowering). -/
def strLower (s : String) : String := ⟨s.data.map Char.toLower⟩

/-- Outcome of a FastAPI endpoint: a payload, or an HTTPException with its
status code and detail string. -/
inductive ApiResult (α : Type) where
  | ok (payload : α)
  | httpError (status : Nat) (detail : String)
  deriving Repr, DecidableEq

/-- api_server.get_value (GET /get/...): 503 when the module-level kv_store is
still None; otherwise call wrapper.get and map an error containing
"not found" (case-insensitively) to 404 and any other error to 500. -/
def get_value (kvStore : Option WrapperState) (key : String) :
    ApiResult (String × String) × Option WrapperState :=
  match kvStore with
  | none => (.httpError 503 notInitMsg, none)
  | some s =>
    let out := KVStoreWrapper.get s key
    match out.err with
    | some e =>
        if strContains (strLower e) "not found" then
          (.httpError 404 e, some out.state)
        else (.httpError 500 e, some out.state)
    | none => (.ok (key, out.value.getD ""), some out.state)

/-- api_server.set_value (POST /set): 503 when the module-level kv_store is
still None; otherwise call wrapper.set; on failure the status code is 400,
overridden to 413 when the error contains "too long" (case-insensitively) and
to 507 when it contains "full" (case-insensitively) or "ENOSPC" (verbatim).
The success payload (a JSON message echoing the key) is modelled as Unit. -/
def set_value (kvStore : Option WrapperState) (key value : String) (ts : Int) :
    ApiResult Unit × Option WrapperState :=
  match kvStore with
  | none => (.httpError 503 notInitMsg, none)
  | some s =>
    let out := KVStoreWrapper.set s key value ts
    if out.ok then (.ok (), some out.state)
    else
      let e := out.err.getD ""
      let code :=
        if strContains (strLower e) "too long" then 413
        else if strContains (strLower e) "full" || strContains e "ENOSPC" then 507
        else 400
      (.httpError code e, some out.state)

/-- Outcome of the api_server lifespan startup phase. -/
inductive StartupOutcome where
  | serving
  | aborted
  deriving Repr, DecidableEq

/-- api_server.lifespan, startup phase: abort (sys.exit(1) from the caught
FileNotFoundError) when the shared library is missing; otherwise construct the
wrapper (store_ptr None, fd -1), call open() first, call create() only when
open() returned False, and abort (sys.exit(1) from the caught RuntimeError)
when create() also fails.  The follow-up get_status probe only prints a
warning and never changes the outcome, so it is omitted. -/
def lifespan (libExists : Bool) (openResp createResp : COpenResult) :
    StartupOutcome × Option WrapperState × List EngineCall :=
  if libExists = false then (.aborted, none, [])
  else
    let s0 : WrapperState := { store_ptr := .noPtr, fd := -1 }
    match KVStoreWrapper.openStore s0 openResp with
    | (true, s1, c1) => (.serving, some s1, c1)
    | (false, s1, c1) =>
      match KVStoreWrapper.create s1 createResp with
      | (true, s2, c2) => (.serving, some s2, c1 ++ c2)
      | (false, s2, c2) => (.aborted, some s2, c1 ++ c2)

/-- The segment a wrapper state points at, when it points at one. -/
def segOf (s : WrapperState) : Option Segment :=
  match s.store_ptr with
  | .valid seg => some seg
  | _ => none

/-- The stored-handle invariant of claim C10: the retained pointer is never a
NULL pointer object. -/
def ptrOk (s : WrapperState) : Prop := s.store_ptr ≠ PtrState.nullPtr

/-- A fully occupied segment: MAX_ENTRIES slots with distinct non-empty keys,
as produced by ten successful distinct puts. -/
def segFull : Segment :=
  { kv_table :=
      [⟨"k0", "v0", 0⟩, ⟨"k1", "v1", 0⟩, ⟨"k2", "v2", 0⟩, ⟨"k3", "v3", 0⟩,
       ⟨"k4", "v4", 0⟩, ⟨"k5", "v5", 0⟩, ⟨"k6", "v6", 0⟩, ⟨"k7", "v7", 0⟩,
       ⟨"k8", "v8", 0⟩, ⟨"k9", "v9", 0⟩],
    version := 11,
    entry_count := 10 }

/-! Theorems settling the claims. -/

set_option maxRecDepth 8192

/-- Wrapper set error messages formatted from an engine errno never coincide
with the validation messages. -/
theorem setErrnoMsg_ne_validation (f : EngineFail) :
    setErrnoMsg (errnoOf f) ≠ keyTooLongMsg ∧
    setErrnoMsg (errnoOf f) ≠ valueTooLongMsg := by
  cases f <;> exact ⟨by decide, by decide⟩

/-- Wrapper get error messages on the engine path never coincide with the
key-validation message. -/
theorem getMsg_ne_validation (f : EngineFail) :
    keyNotFoundMsg ≠ keyTooLongMsg ∧ getErrnoMsg (errnoOf f) ≠ keyTooLongMsg := by
  cases f <;> exact ⟨by decide, by decide⟩

/-- C1: counterexample to the claim as stated.  On an initialized empty store,
a key of exactly KEY_SIZE bytes together with a value of exactly VALUE_SIZE
bytes makes set fail with the KeyTooLong message, not the ValueTooLong one,
although the value's length is ≥ VALUE_SIZE — the key check runs first, so
"fails ValueTooLong iff the value's length ≥ VALUE_SIZE" is false at this
input. -/
theorem c1_counterexample :
    VALUE_SIZE ≤ (String.mk (List.replicate 256 'b')).utf8ByteSize ∧
    (KVStoreWrapper.set ⟨.valid ⟨List.replicate 10 ⟨"", "", 0⟩, 1, 0⟩, -1⟩
        (String.mk (List.replicate 64 'a')) (String.mk (List.replicate 256 'b')) 0).err
      ≠ some valueTooLongMsg ∧
    (KVStoreWrapper.set ⟨.valid ⟨List.replicate 10 ⟨"", "", 0⟩, 1, 0⟩, -1⟩
        (String.mk (List.replicate 64 'a')) (String.mk (List.replicate 256 'b')) 0).err
      = some keyTooLongMsg :=
  ⟨by decide, by decide, by decide⟩

/-- C1 (amended): on an initialized store handle, set fails with the
KeyTooLong error iff the key's UTF-8 length is ≥ KEY_SIZE (so length exactly
KEY_SIZE fails and KEY_SIZE - 1 passes); it fails with the ValueTooLong error
iff the key passes its check and the value's UTF-8 length is ≥ VALUE_SIZE; and
get applies the same key-length validation. -/
theorem c1_amended (seg : Segment) (fd : Int) (key value : String) (ts : Int) :
    ((KVStoreWrapper.set ⟨.valid seg, fd⟩ key value ts).err = some keyTooLongMsg
        ↔ KEY_SIZE ≤ key.utf8ByteSize) ∧
    ((KVStoreWrapper.set ⟨.valid seg, fd⟩ key value ts).err = some valueTooLongMsg
        ↔ key.utf8ByteSize < KEY_SIZE ∧ VALUE_SIZE ≤ value.utf8ByteSize) ∧
    ((KVStoreWrapper.get ⟨.valid seg, fd⟩ key).err = some keyTooLongMsg
        ↔ KEY_SIZE ≤ key.utf8ByteSize) := by
  have hkv : keyTooLongMsg ≠ valueTooLongMsg := by decide
  have hget : ∀ hout : GetOut,
      hout = KVStoreWrapper.get ⟨.valid seg, fd⟩ key →
      ¬ KEY_SIZE ≤ key.utf8ByteSize → hout.err ≠ some keyTooLongMsg := by
    intro hout hdef hk
    subst hdef
    simp only [KVStoreWrapper.get, engineGet, if_neg hk]
    cases hfind : seg.kv_table.find? (fun p => !slotFree p && p.key == key) with
    | none =>
        simp [hfind, errnoOf, (getMsg_ne_validation .notFound).1]
    | some p => simp [hfind]
  refine ⟨?_, ?_, ?_⟩
  · by_cases hk : KEY_SIZE ≤ key.utf8ByteSize
    · simp [KVStoreWrapper.set, if_pos hk, hk]
    · simp only [KVStoreWrapper.set, if_neg hk]
      by_cases hv : VALUE_SIZE ≤ value.utf8ByteSize
      · simp [if_pos hv, hkv.symm, hk]
      · cases hput : enginePut seg key value ts with
        | ok seg2 => simp [if_neg hv, hput, hk]
        | error f => simp [if_neg hv, hput, (setErrnoMsg_ne_validation f).1, hk]
  · by_cases hk : KEY_SIZE ≤ key.utf8ByteSize
    · simp [KVStoreWrapper.set, if_pos hk, hkv, Nat.not_lt.mpr hk]
    · simp only [KVStoreWrapper.set, if_neg hk]
      by_cases hv : VALUE_SIZE ≤ value.utf8ByteSize
      · simp [if_pos hv, Nat.lt_of_not_le hk, hv]
      · cases hput : enginePut seg key value ts with
        | ok seg2 => simp [if_neg hv, hput, hv]
        | error f => simp [if_neg hv, hput, (setErrnoMsg_ne_validation f).2, hv]
  · by_cases hk : KEY_SIZE ≤ key.utf8ByteSize
    · simp [KVStoreWrapper.get, if_pos hk, hk]
    · simp only [hk, iff_false]
      exact hget _ rfl hk

/-- C3: when set fails validation (store not initialized, key too long, or
value too long) no C engine function is invoked, the mapped segment is
unchanged, and the failure result is returned; likewise for get with its
validations (store not initialized or key too long). -/
theorem c3_validation_short_circuits (s : WrapperState) (key value : String)
    (ts : Int) :
    ((checkStore s).1 = false ∨ KEY_SIZE ≤ key.utf8ByteSize ∨
        VALUE_SIZE ≤ value.utf8ByteSize →
      (KVStoreWrapper.set s key value ts).calls = [] ∧
      segOf (KVStoreWrapper.set s key value ts).state = segOf s ∧
      (KVStoreWrapper.set s key value ts).ok = false ∧
      (KVStoreWrapper.set s key value ts).err ≠ none) ∧
    ((checkStore s).1 = false ∨ KEY_SIZE ≤ key.utf8ByteSize →
      (KVStoreWrapper.get s key).calls = [] ∧
      segOf (KVStoreWrapper.get s key).state = segOf s ∧
      (KVStoreWrapper.get s key).value = none ∧
      (KVStoreWrapper.get s key).err ≠ none) := by
  obtain ⟨p, fd⟩ := s
  cases p with
  | noPtr =>
      exact ⟨fun _ => ⟨rfl, rfl, rfl, by simp [KVStoreWrapper.set]⟩,
             fun _ => ⟨rfl, rfl, rfl, by simp [KVStoreWrapper.get]⟩⟩
  | nullPtr =>
      exact ⟨fun _ => ⟨rfl, rfl, rfl, by simp [KVStoreWrapper.set, segOf]⟩,
             fun _ => ⟨rfl, rfl, rfl, by simp [KVStoreWrapper.get, segOf]⟩⟩
  | valid seg =>
      constructor
      · intro h
        rcases h with h | h | h
        · simp [checkStore] at h
        · simp [KVStoreWrapper.set, if_pos h, segOf]
        · by_cases hk : KEY_SIZE ≤ key.utf8ByteSize
          · simp [KVStoreWrapper.set, if_pos hk, segOf]
          · simp [KVStoreWrapper.set, if_neg hk, if_pos h, segOf]
      · intro h
        rcases h with h | h
        · simp [checkStore] at h
        · simp [KVStoreWrapper.get, if_pos h, segOf]

/-- C3 witness: on a never-initialized handle, set and get short-circuit. -/
theorem c3_witness :
    (checkStore ⟨.noPtr, -1⟩).1 = false ∧
    (KVStoreWrapper.set ⟨.noPtr, -1⟩ "k" "v" 0).calls = [] ∧
    segOf (KVStoreWrapper.set ⟨.noPtr, -1⟩ "k" "v" 0).state = segOf ⟨.noPtr, -1⟩ ∧
    (KVStoreWrapper.set ⟨.noPtr, -1⟩ "k" "v" 0).ok = false ∧
    (KVStoreWrapper.get ⟨.noPtr, -1⟩ "k").calls = [] ∧
    segOf (KVStoreWrapper.get ⟨.noPtr, -1⟩ "k").state = segOf ⟨.noPtr, -1⟩ ∧
    (KVStoreWrapper.get ⟨.noPtr, -1⟩ "k").value = none := by
  have h := c3_validation_short_circuits ⟨.noPtr, -1⟩ "k" "v" 0
  have h1 := h.1 (Or.inl rfl)
  have h2 := h.2 (Or.inl rfl)
  exact ⟨rfl, h1.1, h1.2.1, h1.2.2.1, h2.1, h2.2.1, h2.2.2.1⟩

/-- C6: the StoreFull-to-507 mapping is dead code.  End to end at the failing
input: on a fully occupied store, POST /set of a new key makes the engine fail
(modelled errno ENOSPC = 28), the wrapper formats the message
"Error setting key: errno=28", and the server answers 400 — not the claimed
507 — because set_value assigns 507 only when the message contains "full" or
"ENOSPC", and a wrapper message formatted from any engine failure kind
contains neither (second conjunct). -/
theorem c6_storefull_yields_400_not_507 :
    (set_value (some ⟨.valid segFull, 3⟩) "newkey" "w" 0).1 =
      .httpError 400 (setErrnoMsg 28) ∧
    (∀ f : EngineFail,
       strContains (strLower (setErrnoMsg (errnoOf f))) "full" = false ∧
       strContains (setErrnoMsg (errnoOf f)) "ENOSPC" = false) := by
  refine ⟨by decide, ?_⟩
  intro f; cases f <;> exact ⟨by decide, by decide⟩

/-- C8: service startup (with the shared library present) always attempts
open() first; create() is invoked iff open() failed (NULL return); and the
startup aborts iff open() and create() both failed, serving otherwise. -/
theorem c8_startup_fallback (openResp createResp : COpenResult) :
    ((lifespan true openResp createResp).2.2.head? = some .kvOpen) ∧
    (EngineCall.kvCreate ∈ (lifespan true openResp createResp).2.2 ↔
        openResp.ptr = none) ∧
    ((lifespan true openResp createResp).1 = .aborted ↔
        (openResp.ptr = none ∧ createResp.ptr = none)) := by
  obtain ⟨op, ofd⟩ := openResp
  obtain ⟨cp, cfd⟩ := createResp
  cases op <;> cases cp <;>
    simp [lifespan, KVStoreWrapper.openStore, KVStoreWrapper.create, checkStore]

/-- C9: the length limits are measured in UTF-8 encoded bytes, not
characters: a key with fewer than KEY_SIZE characters but at least KEY_SIZE
encoded bytes is rejected by set and by get with the key-too-long error, and a
value with fewer than VALUE_SIZE characters but at least VALUE_SIZE encoded
bytes is rejected by set (shown with the one-byte key "k") with the
value-too-long error. -/
theorem c9_byte_limits (seg : Segment) (fd : Int) (key value : String)
    (ts : Int) (hkc : key.length < KEY_SIZE) (hkb : KEY_SIZE ≤ key.utf8ByteSize)
    (hvc : value.length < VALUE_SIZE) (hvb : VALUE_SIZE ≤ value.utf8ByteSize) :
    (KVStoreWrapper.set ⟨.valid seg, fd⟩ key value ts).err = some keyTooLongMsg ∧
    (KVStoreWrapper.get ⟨.valid seg, fd⟩ key).err = some keyTooLongMsg ∧
    (KVStoreWrapper.set ⟨.valid seg, fd⟩ "k" value ts).err = some valueTooLongMsg := by
  refine ⟨?_, ?_, ?_⟩
  · simp [KVStoreWrapper.set, if_pos hkb]
  · simp [KVStoreWrapper.get, if_pos hkb]
  · have h1 : ¬ KEY_SIZE ≤ ("k" : String).utf8ByteSize := by decide
    simp [KVStoreWrapper.set, if_neg h1, if_pos hvb]

/-- C9 witness: 22 euro signs are 22 characters but 66 UTF-8 bytes, past the
64-byte key bound; 86 euro signs are 86 characters but 258 UTF-8 bytes, past
the 256-byte value bound. -/
theorem c9_witness :
    ((String.mk (List.replicate 22 '€')).length < KEY_SIZE ∧
     KEY_SIZE ≤ (String.mk (List.replicate 22 '€')).utf8ByteSize ∧
     (String.mk (List.replicate 86 '€')).length < VALUE_SIZE ∧
     VALUE_SIZE ≤ (String.mk (List.replicate 86 '€')).utf8ByteSize) ∧
    ((KVStoreWrapper.set ⟨.valid ⟨[], 1, 0⟩, -1⟩ (String.mk (List.replicate 22 '€'))
        (String.mk (List.replicate 86 '€')) 0).err = some keyTooLongMsg ∧
     (KVStoreWrapper.get ⟨.valid ⟨[], 1, 0⟩, -1⟩
        (String.mk (List.replicate 22 '€'))).err = some keyTooLongMsg ∧
     (KVStoreWrapper.set ⟨.valid ⟨[], 1, 0⟩, -1⟩ "k"
        (String.mk (List.replicate 86 '€')) 0).err = some valueTooLongMsg) :=
  ⟨⟨by decide, by decide, by decide, by decide⟩,
   c9_byte_limits ⟨[], 1, 0⟩ (-1) _ _ 0 (by decide) (by decide) (by decide)
     (by decide)⟩

/-- Set never retains a NULL pointer object. -/
theorem ptrOk_set (s : WrapperState) (key value : String) (ts : Int) :
    ptrOk (KVStoreWrapper.set s key value ts).state := by
  obtain ⟨p, fd⟩ := s
  cases p with
  | noPtr => simp [KVStoreWrapper.set, ptrOk]
  | nullPtr => simp [KVStoreWrapper.set, ptrOk]
  | valid seg =>
      by_cases hk : KEY_SIZE ≤ key.utf8ByteSize
      · simp [KVStoreWrapper.set, if_pos hk, ptrOk]
      · by_cases hv : VALUE_SIZE ≤ value.utf8ByteSize
        · simp [KVStoreWrapper.set, if_neg hk, if_pos hv, ptrOk]
        · cases hput : enginePut seg key value ts <;>
            simp [KVStoreWrapper.set, if_neg hk, if_neg hv, hput, ptrOk]

/-- Get never retains a NULL pointer object. -/
theorem ptrOk_get (s : WrapperState) (key : String) :
    ptrOk (KVStoreWrapper.get s key).state := by
  obtain ⟨p, fd⟩ := s
  cases p with
  | noPtr => simp [KVStoreWrapper.get, ptrOk]
  | nullPtr => simp [KVStoreWrapper.get, ptrOk]
  | valid seg =>
      by_cases hk : KEY_SIZE ≤ key.utf8ByteSize
      · simp [KVStoreWrapper.get, if_pos hk, ptrOk]
      · cases hres : engineGet seg key with
        | ok v => simp [KVStoreWrapper.get, if_neg hk, hres, ptrOk]
        | error f =>
            by_cases h2 : errnoOf f = 2 <;>
              simp [KVStoreWrapper.get, if_neg hk, hres, h2, ptrOk]

/-- C10: every wrapper operation — set, get, get_status, destroy, create and
open — leaves the stored handle either None or a valid pointer: a detected
NULL pointer object is normalized to None before the operation returns, so a
NULL pointer is never retained (and the dereference in get_status happens only
behind this check). -/
theorem c10_ptr_invariant (s : WrapperState) (key value : String) (ts : Int)
    (r : COpenResult) :
    ptrOk (KVStoreWrapper.set s key value ts).state ∧
    ptrOk (KVStoreWrapper.get s key).state ∧
    ptrOk (KVStoreWrapper.get_status s).2.1 ∧
    ptrOk (KVStoreWrapper.destroy s).1 ∧
    ptrOk (KVStoreWrapper.create s r).2.1 ∧
    ptrOk (KVStoreWrapper.openStore s r).2.1 := by
  refine ⟨ptrOk_set s key value ts, ptrOk_get s key, ?_, ?_, ?_, ?_⟩
  · obtain ⟨p, fd⟩ := s
    cases p <;> simp [KVStoreWrapper.get_status, ptrOk]
  · obtain ⟨p, fd⟩ := s
    cases p <;> simp [KVStoreWrapper.destroy, ptrOk]
  · obtain ⟨rp, rfd⟩ := r
    cases rp <;> simp [KVStoreWrapper.create, checkStore, ptrOk]
  · obtain ⟨rp, rfd⟩ := r
    cases rp <;> simp [KVStoreWrapper.openStore, checkStore, ptrOk]

/-- C2: with an uninitialized handle — store_ptr is None or a NULL pointer
object — set returns the failure (False, "Store not initialized"), get returns
(None, "Store not initialized"), and get_status returns None; each operation
is a total Lean function returning its discriminated result, so none raises or
aborts, and none invokes the C engine. -/
theorem c2_uninitialized_discriminated (fd : Int) (key value : String) (ts : Int) :
    ((KVStoreWrapper.set ⟨.noPtr, fd⟩ key value ts).ok = false ∧
     (KVStoreWrapper.set ⟨.noPtr, fd⟩ key value ts).err = some notInitMsg ∧
     (KVStoreWrapper.get ⟨.noPtr, fd⟩ key).value = none ∧
     (KVStoreWrapper.get ⟨.noPtr, fd⟩ key).err = some notInitMsg ∧
     (KVStoreWrapper.get_status ⟨.noPtr, fd⟩).1 = none) ∧
    ((KVStoreWrapper.set ⟨.nullPtr, fd⟩ key value ts).ok = false ∧
     (KVStoreWrapper.set ⟨.nullPtr, fd⟩ key value ts).err = some notInitMsg ∧
     (KVStoreWrapper.get ⟨.nullPtr, fd⟩ key).value = none ∧
     (KVStoreWrapper.get ⟨.nullPtr, fd⟩ key).err = some notInitMsg ∧
     (KVStoreWrapper.get_status ⟨.nullPtr, fd⟩).1 = none) :=
  ⟨⟨rfl, rfl, rfl, rfl, rfl⟩, ⟨rfl, rfl, rfl, rfl, rfl⟩⟩

/-- The get_status collection loop lists exactly the non-free slots, in index
order, each as its (key, value, timestamp). -/
theorem collectEntries_eq_filter_map (l : List KVPair) :
    collectEntries l =
      (l.filter fun p => !slotFree p).map fun p => ⟨p.key, p.value, p.timestamp⟩ := by
  induction l with
  | nil => rfl
  | cons p rest ih =>
      by_cases h : slotFree p = true
      · simp [collectEntries, h, List.filter_cons, ih]
      · simp [collectEntries, h, List.filter_cons, ih]

/-- C4: on an initialized store, get_status returns the segment's version,
entry_count, the capacity MAX_ENTRIES = 10, and exactly the slots that are not
free (a slot is free iff its key is empty, i.e. its first byte is the
terminator), in index order as (key, value, timestamp); and it leaves the
wrapper state untouched and invokes no C function. -/
theorem c4_status_snapshot (seg : Segment) (fd : Int) :
    (KVStoreWrapper.get_status ⟨.valid seg, fd⟩).1 =
      some { version := seg.version, entry_count := seg.entry_count,
             max_entries := 10,
             entries := (seg.kv_table.filter fun p => !slotFree p).map
                          fun p => ⟨p.key, p.value, p.timestamp⟩ } ∧
    (KVStoreWrapper.get_status ⟨.valid seg, fd⟩).2.1 = ⟨.valid seg, fd⟩ ∧
    (KVStoreWrapper.get_status ⟨.valid seg, fd⟩).2.2 = [] := by
  refine ⟨?_, rfl, rfl⟩
  simp [KVStoreWrapper.get_status, collectEntries_eq_filter_map, MAX_ENTRIES]

/-- C5: get_status on an initialized store produces a snapshot while invoking
no C library function at all — but the Guard lives behind the C engine calls
(per the spec every engine operation acquires it internally, and the Python
layer treats the embedded semaphore as opaque padding), so the status read
acquires no lock, contradicting the claim that it holds the Guard. -/
theorem c5_status_invokes_no_engine_call (seg : Segment) (fd : Int) :
    (KVStoreWrapper.get_status ⟨.valid seg, fd⟩).2.2 = [] ∧
    (KVStoreWrapper.get_status ⟨.valid seg, fd⟩).1 ≠ none :=
  ⟨rfl, by simp [KVStoreWrapper.get_status]⟩

/-- C7: destroy is idempotent on the wrapper state; after destroy the store
pointer is None; a second destroy invokes nothing; destroy on an initialized
handle resets fd to -1 and invokes the C unmap exactly once; destroy on a
never-initialized or already-destroyed handle (store_ptr None) changes nothing
and invokes nothing; destroy on a NULL pointer object only normalizes it. -/
theorem c7_destroy_idempotent (s : WrapperState) :
    (KVStoreWrapper.destroy (KVStoreWrapper.destroy s).1).1 =
      (KVStoreWrapper.destroy s).1 ∧
    (KVStoreWrapper.destroy s).1.store_ptr = .noPtr ∧
    (KVStoreWrapper.destroy (KVStoreWrapper.destroy s).1).2 = [] ∧
    (match s.store_ptr with
     | .valid _ =>
         (KVStoreWrapper.destroy s).1.fd = -1 ∧
         (KVStoreWrapper.destroy s).2 = [.kvDestroy]
     | .noPtr =>
         (KVStoreWrapper.destroy s).1 = s ∧ (KVStoreWrapper.destroy s).2 = []
     | .nullPtr => (KVStoreWrapper.destroy s).2 = []) := by
  obtain ⟨p, fd⟩ := s
  cases p <;> simp [KVStoreWrapper.destroy]

end SharedMemoryKV
